import Mathlib

/-!
Verification development for the wordguess ml-service core: a shallow
embedding of the model manager (`utils/model_manager.py`), the word2vec
query service (`services/word2vec_service.py`) and the input validation
layer (`utils/validation.py`), together with theorems settling the
specification claims about them.

Conventions of the embedding:
* Python strings are Lean `String`s; character-level operations work on
  `String.data`.  `str.strip()` is modelled by `pyStrip` over the ASCII
  whitespace characters.  Python `isalpha` is modelled by `Char.isAlpha`
  (ASCII letters); all claims and counterexamples use ASCII words only.
* Python exceptions raised by the embedded functions are values of the
  inductive type `PyExc`; a fallible function returns `Except PyExc _`.
  The constructors mirror the exception classes of `utils/exceptions.py`
  that the embedded code paths can raise or that claims mention.
* A loaded gensim model (`KeyedVectors`) is embedded as its rank-ordered
  vocabulary (`index_to_key`) plus a total vector-assignment function and
  the vector dimensionality; it is immutable, as in gensim.
* Sources of randomness (`random.choices`, `random.choice`) are modelled
  by explicit parameters: a stream `draws : Nat → Nat` of raw draws taken
  modulo the sampling range, and an index for `random.choice`.
* Machine floats are modelled by `ℚ` (where the code only moves numbers
  around) and by `ℝ` (for the cosine-similarity value, so that the
  range property can be stated); wall-clock times are opaque `ℚ` values
  supplied by the load environment.
-/

namespace WordGuess

/-- The apostrophe character, built numerically. -/
def squoC : Char := Char.ofNat 39

/-- The apostrophe as a one-character string, used to build the quoted
Python error messages. -/
def squo : String := String.mk [squoC]

/-- Wrap a string in apostrophes the way Python f-strings with
`'...{x}...'` quoting do. -/
def pyQuote (s : String) : String := squo ++ s ++ squo

/-- ASCII whitespace recognised by Python `str.strip()` (space, tab,
newline, carriage return, vertical tab, form feed). -/
def isPySpace (c : Char) : Bool :=
  c == ' ' || c == '\t' || c == '\n' || c == '\r' ||
  c == Char.ofNat 11 || c == Char.ofNat 12

/-- `str.strip()` on a character list: drop whitespace from both ends. -/
def pyStripL (l : List Char) : List Char :=
  ((l.dropWhile isPySpace).reverse.dropWhile isPySpace).reverse

/-- `str.strip()` on a string. -/
def pyStrip (s : String) : String := String.mk (pyStripL s.data)

/-- Whether the character list contains two adjacent occurrences of `c`,
i.e. whether the two-character string `cc` occurs as a substring. -/
def hasDouble (c : Char) : List Char → Bool
  | [] => false
  | [_] => false
  | a :: b :: rest => (a == c && b == c) || hasDouble c (b :: rest)

/-- Membership in the character class of `WORD_PATTERN`
(`^[a-zA-Z0-9\-_'.]+$` in `utils/validation.py`). -/
def isWordChar (c : Char) : Bool :=
  (c.isUpper || c.isLower) || c.isDigit || c == '-' || c == '_' ||
  c == squoC || c == '.'

/-- Python `repr` of a list of strings, as interpolated into the
"Unknown model" message (`['a', 'b']`-style). -/
def pyStrListRepr (l : List String) : String :=
  "[" ++ String.intercalate ", " (l.map pyQuote) ++ "]"

/-- Exception values raised by the embedded code, mirroring the classes
in `utils/exceptions.py`.  `wordNotFoundError` and `modelNotFoundError`
exist in the source as subclasses of `validationError` and `modelError`
respectively; the embedded service code never constructs them, which is
what several claims are about. -/
inductive PyExc where
  | validationError (message : String)
  | wordNotFoundError (message : String)
  | modelError (message : String)
  | modelNotFoundError (message : String)
deriving DecidableEq, Repr

/-- Whether an exception value is an instance of the class
`WordNotFoundError` (not merely of its superclass `ValidationError`). -/
def PyExc.isWordNotFound : PyExc → Bool
  | .wordNotFoundError _ => true
  | _ => false

/-- Whether an exception value is an instance of the class
`ModelNotFoundError` (not merely of its superclass `ModelError`). -/
def PyExc.isModelNotFound : PyExc → Bool
  | .modelNotFoundError _ => true
  | _ => false

/-- `Bool`-valued success test on `Except`. -/
def isOkE {ε α : Type} : Except ε α → Bool
  | .ok _ => true
  | .error _ => false

/-! ## Embedding of a loaded gensim model (`KeyedVectors`) -/

/-- A loaded gensim `KeyedVectors` model: the rank-ordered vocabulary
(`index_to_key`, rank 0 = most frequent), a total assignment of vectors
to words (only consulted for words in the vocabulary), and the vector
dimensionality.  `key_to_index` is the inverse view of `indexToKey`. -/
structure KeyedVectors where
  indexToKey : List String
  vec : String → List ℚ
  vectorSize : Nat

/-- `Word2VecService._word_exists_in_model`: for a `KeyedVectors` model
the first branch (`has_index_for`) applies and is a membership test in
`key_to_index`, i.e. in the vocabulary. -/
def word_exists_in_model (m : KeyedVectors) (w : String) : Bool :=
  m.indexToKey.contains w

/-- `Word2VecService._get_vocabulary_size`: for a `KeyedVectors` model
the first branch (`len(model)`) applies: the vocabulary length. -/
def get_vocabulary_size (m : KeyedVectors) : Nat :=
  m.indexToKey.length

/-- `Word2VecService._get_word_at_index`: look up `index_to_key[index]`
when in range, then return the stripped word provided the strip is
non-empty, else `None`. -/
def get_word_at_index (m : KeyedVectors) (index : Nat) : Option String :=
  match m.indexToKey.get? index with
  | none => none
  | some w => if pyStrip w == "" then none else some (pyStrip w)

/-! ## Input validation (`utils/validation.py`) -/

/-- `MIN_WORD_LENGTH` from `utils/validation.py`. -/
def MIN_WORD_LENGTH : Nat := 1

/-- `MAX_WORD_LENGTH` from `utils/validation.py`. -/
def MAX_WORD_LENGTH : Nat := 100

/-- `WORD_BLACKLIST` from `utils/validation.py`. -/
def WORD_BLACKLIST : List String := ["", " ", "\t", "\n", "\r"]

/-- `validate_word` from `utils/validation.py` with the default field
name `word`: strip, reject empty/blacklisted, enforce the length bounds,
the `WORD_PATTERN` character class, no leading/trailing hyphen or
underscore, and no doubled `-`, `_` or `.`; return the stripped word. -/
def validate_word (word : String) : Except PyExc String :=
  let w := pyStrip word
  if w.data.isEmpty || WORD_BLACKLIST.contains w then
    .error (.validationError (pyQuote "word" ++ " cannot be empty or whitespace"))
  else if w.data.length < MIN_WORD_LENGTH then
    .error (.validationError (pyQuote "word" ++ " must be at least 1 character(s) long"))
  else if MAX_WORD_LENGTH < w.data.length then
    .error (.validationError (pyQuote "word" ++ " cannot be longer than 100 characters"))
  else if !(w.data.all isWordChar) then
    .error (.validationError (pyQuote "word" ++ " contains invalid characters. Only letters, numbers, hyphens, underscores, apostrophes, and dots are allowed"))
  else if w.data.head? == some '-' || w.data.getLast? == some '-' then
    .error (.validationError (pyQuote "word" ++ " cannot start or end with a hyphen"))
  else if w.data.head? == some '_' || w.data.getLast? == some '_' then
    .error (.validationError (pyQuote "word" ++ " cannot start or end with an underscore"))
  else if hasDouble '-' w.data || hasDouble '_' w.data || hasDouble '.' w.data then
    .error (.validationError (pyQuote "word" ++ " cannot contain consecutive special characters"))
  else
    .ok w

/-- The special (non-alphanumeric) characters of the validation charset. -/
def specialChars : List Char := ['-', '_', squoC, '.']

/-- Acceptance criteria of claim C7, taken from the specification words:
after trimming the word is non-empty, has length between 1 and 100,
contains only charset characters, does not start or end with a hyphen or
an underscore, and contains no doubled special character (any of the four
special characters doubled). -/
def specAcceptsC7 (word : String) : Bool :=
  let w := (pyStrip word).data
  !w.isEmpty && decide (1 ≤ w.length) && decide (w.length ≤ 100) &&
  w.all isWordChar &&
  !(w.head? == some '-') && !(w.getLast? == some '-') &&
  !(w.head? == some '_') && !(w.getLast? == some '_') &&
  !(specialChars.any (fun c => hasDouble c w))

/-- Acceptance criteria of claim C7 as amended: identical to
`specAcceptsC7` except that the doubled-character prohibition covers only
`--`, `__` and `..`, exactly as the source checks; doubled apostrophes
are allowed. -/
def amendedAcceptsC7 (word : String) : Bool :=
  let w := (pyStrip word).data
  !w.isEmpty && decide (1 ≤ w.length) && decide (w.length ≤ 100) &&
  w.all isWordChar &&
  !(w.head? == some '-') && !(w.getLast? == some '-') &&
  !(w.head? == some '_') && !(w.getLast? == some '_') &&
  !(hasDouble '-' w || hasDouble '_' w || hasDouble '.' w)

/-! ## Cosine similarity -/

/-- Dot product of two rational vectors (`zipWith` truncates to the
shorter length; the embedded call sites use equal-length vectors). -/
def dotQ (v w : List ℚ) : ℚ := (List.zipWith (fun a b => a * b) v w).sum

/-- `model.similarity(w1, w2)`: the cosine of the two word vectors, with
the real-division convention that a zero denominator gives 0. -/
noncomputable def cosineSim (v w : List ℚ) : ℝ :=
  ((dotQ v w : ℚ) : ℝ) /
    (Real.sqrt ((dotQ v v : ℚ) : ℝ) * Real.sqrt ((dotQ w w : ℚ) : ℝ))

/-! ## Query service (`services/word2vec_service.py`) -/

/-- Message of the `ValidationError` raised by `compare_words` and
`get_most_similar_words` for an out-of-vocabulary word. -/
def notFoundMsg (w : String) : String :=
  "Word " ++ pyQuote w ++ " not found in model vocabulary"

/-- Message recorded per failed pair by `compare_words_batch`. -/
def notFoundBatchMsg (w : String) : String :=
  "Word " ++ pyQuote w ++ " not found in vocabulary"

/-- Result dictionary of a successful `compare_words` call. -/
structure CompareResult where
  word1 : String
  word2 : String
  similarity : ℝ
  model : String
  status : String

/-- `Word2VecService.compare_words`: check each word for membership
(word1 first), raising a `ValidationError` for the first absent one;
otherwise return the cosine similarity of the two vectors. -/
noncomputable def compare_words (m : KeyedVectors) (word1 word2 model_name : String) :
    Except PyExc CompareResult :=
  if !(word_exists_in_model m word1) then
    .error (.validationError (notFoundMsg word1))
  else if !(word_exists_in_model m word2) then
    .error (.validationError (notFoundMsg word2))
  else
    .ok { word1 := word1, word2 := word2,
          similarity := cosineSim (m.vec word1) (m.vec word2),
          model := model_name, status := "success" }

/-- `Word2VecService._is_clean_word`: length between 3 and 15 and only
alphabetic characters. -/
def is_clean_word (w : String) : Bool :=
  !(w.data.length < 3 || 15 < w.data.length) && w.data.all Char.isAlpha

/-- The curated fallback list of `Word2VecService._get_fallback_word`. -/
def fallback_words : List String :=
  ["word", "time", "person", "year", "way", "day", "thing", "man",
   "world", "life", "hand", "part", "child", "eye", "woman", "place",
   "work", "week", "case", "point", "government", "company", "number",
   "group", "problem", "fact", "water", "money", "story", "example",
   "family", "system", "program", "question", "school", "business",
   "area", "health", "power", "book", "music", "house", "food"]

/-- `Word2VecService._get_fallback_word`: when the model argument is
truthy (non-empty vocabulary, via `KeyedVectors.__len__`), return the
first fallback word present in the vocabulary; otherwise — and also when
the model argument is falsy — return `random.choice(fallback_words)`,
modelled by the caller-supplied index `choiceIdx` taken modulo the list
length. -/
def get_fallback_word (m : KeyedVectors) (choiceIdx : Nat) : String :=
  if get_vocabulary_size m ≠ 0 then
    match fallback_words.find? (fun w => word_exists_in_model m w) with
    | some w => w
    | none => (fallback_words.getD (choiceIdx % fallback_words.length) "")
  else (fallback_words.getD (choiceIdx % fallback_words.length) "")

/-- Result dictionary of `get_random_word`.  The success path stores the
drawn rank in `wordIndex` and has `fallbackUsed = false`; the fallback
path stores no rank and has `fallbackUsed = true` (mirroring which keys
each of the two result dicts in the source carries). -/
structure RandomWordResult where
  word : String
  model : String
  batchAttempt : Nat
  batchSize : Nat
  commonWordsPool : Nat
  totalVocabSize : Nat
  wordIndex : Option Nat
  status : String
  fallbackUsed : Bool
deriving DecidableEq, Repr

/-- Inner loop of `get_random_word` over one batch of drawn ranks: return
the first drawn rank whose word is non-null, clean, and re-verified to
exist in the vocabulary, together with that word. -/
def findCleanInBatch (m : KeyedVectors) : List Nat → Option (String × Nat)
  | [] => none
  | i :: rest =>
    match get_word_at_index m i with
    | some w =>
      if is_clean_word w && word_exists_in_model m w then some (w, i)
      else findCleanInBatch m rest
    | none => findCleanInBatch m rest

/-- The `batch_size` ranks drawn in the given retry round:
`random.choices(range(maxIdx), k=batch_size)`, modelled by consuming the
draw stream and reducing each raw draw modulo `maxIdx`. -/
def batchIndices (draws : Nat → Nat) (maxIdx attempt batchSize : Nat) : List Nat :=
  (List.range batchSize).map (fun j => draws (attempt * batchSize + j) % maxIdx)

/-- The retry loop of `get_random_word`: up to `remaining` further
rounds, starting at round number `attempt`; yields the accepted word,
its rank, and the 1-based number of the accepting round. -/
def randomWordLoop (m : KeyedVectors) (draws : Nat → Nat) (maxIdx batchSize : Nat) :
    Nat → Nat → Option (String × Nat × Nat)
  | _, 0 => none
  | attempt, remaining + 1 =>
    match findCleanInBatch m (batchIndices draws maxIdx attempt batchSize) with
    | some (w, i) => some (w, i, attempt + 1)
    | none => randomWordLoop m draws maxIdx batchSize (attempt + 1) remaining

/-- `Word2VecService.get_random_word`: fail on an empty vocabulary;
otherwise sample batches of ranks below `min 15000 vocabSize` for up to
`max_retries` rounds, accepting the first clean verified word; if no
round accepts, fall back to `get_fallback_word`.  `draws` and
`choiceIdx` model the randomness (see `batchIndices` and
`get_fallback_word`). -/
def get_random_word (m : KeyedVectors) (model_name : String)
    (draws : Nat → Nat) (choiceIdx : Nat) (batch_size max_retries : Nat) :
    Except PyExc RandomWordResult :=
  let vocab_size := get_vocabulary_size m
  if vocab_size = 0 then .error (.modelError "Model vocabulary is empty")
  else
    let maxWordIndex := min 15000 vocab_size
    match randomWordLoop m draws maxWordIndex batch_size 0 max_retries with
    | some (w, i, att) =>
      .ok { word := w, model := model_name, batchAttempt := att,
            batchSize := batch_size, commonWordsPool := maxWordIndex,
            totalVocabSize := vocab_size, wordIndex := some i,
            status := "success", fallbackUsed := false }
    | none =>
      .ok { word := get_fallback_word m choiceIdx, model := model_name,
            batchAttempt := max_retries, batchSize := batch_size,
            commonWordsPool := maxWordIndex, totalVocabSize := vocab_size,
            wordIndex := none, status := "success", fallbackUsed := true }

/-- Result dictionary of `check_word_exists`; `vocabularyRank` is the
key added only when the word exists. -/
structure ExistsResult where
  word : String
  wordExists : Bool
  model : String
  status : String
  vocabularyRank : Option Nat
deriving DecidableEq, Repr

/-- `Word2VecService.check_word_exists`: a membership test; on success
the rank (`model.get_index(word)`, the position in the rank order) is
additionally reported.  The body has no failing operation, so the
embedding is total: the `except` re-raise branch of the source is
unreachable. -/
def check_word_exists (m : KeyedVectors) (word model_name : String) : ExistsResult :=
  let e := word_exists_in_model m word
  { word := word, wordExists := e, model := model_name, status := "success",
    vocabularyRank := if e then some (m.indexToKey.indexOf word) else none }

/-- One requested pair of `compare_words_batch`. -/
structure PairCmp where
  word1 : String
  word2 : String
deriving DecidableEq, Repr

/-- One entry of the per-pair success list of `compare_words_batch`. -/
structure SimEntry where
  word1 : String
  word2 : String
  similarity : ℝ

/-- One entry of the per-pair failure list of `compare_words_batch`. -/
structure FailureEntry where
  index : Nat
  word1 : String
  word2 : String
  error : String
deriving DecidableEq, Repr

/-- Both words of a pair are in the vocabulary. -/
def bothExist (m : KeyedVectors) (c : PairCmp) : Bool :=
  word_exists_in_model m c.word1 && word_exists_in_model m c.word2

/-- The failure entry recorded for a pair at index `i`: the error names
`word1` if it is absent, else `word2` (the source checks `word1` first). -/
def mkFailure (m : KeyedVectors) (i : Nat) (c : PairCmp) : FailureEntry :=
  { index := i, word1 := c.word1, word2 := c.word2,
    error := if !(word_exists_in_model m c.word1) then notFoundBatchMsg c.word1
             else notFoundBatchMsg c.word2 }

/-- The loop of `compare_words_batch`, starting at index `i`: returns
the success list, the success count, and the failure list. -/
noncomputable def batchStep (m : KeyedVectors) :
    Nat → List PairCmp → List SimEntry × Nat × List FailureEntry
  | _, [] => ([], 0, [])
  | i, c :: rest =>
    let acc := batchStep m (i + 1) rest
    if bothExist m c then
      ({ word1 := c.word1, word2 := c.word2,
         similarity := cosineSim (m.vec c.word1) (m.vec c.word2) } :: acc.1,
       acc.2.1 + 1, acc.2.2)
    else
      (acc.1, acc.2.1, mkFailure m i c :: acc.2.2)

/-- Result dictionary of `compare_words_batch`; `failures` is the key
included only when non-empty, modelled as a possibly empty list. -/
structure BatchResult where
  results : List SimEntry
  model : String
  totalComparisons : Nat
  successfulComparisons : Nat
  failedComparisons : Nat
  status : String
  failures : List FailureEntry

/-- `Word2VecService.compare_words_batch`: evaluate every pair in order,
recording a success entry or an indexed failure entry for each, and
report the totals. -/
noncomputable def compare_words_batch (m : KeyedVectors)
    (comparisons : List PairCmp) (model_name : String) : BatchResult :=
  let acc := batchStep m 0 comparisons
  { results := acc.1, model := model_name,
    totalComparisons := comparisons.length,
    successfulComparisons := acc.2.1,
    failedComparisons := acc.2.2.length,
    status := "success", failures := acc.2.2 }

/-! ## Model manager (`utils/model_manager.py`)

The Python `ModelManager` guards the whole body of `get_model` (cache
check, catalog check, load, publish) and of the unload operations with a
single re-entrant lock, so any set of concurrent calls executes as some
serial sequence of whole bodies.  The embedding therefore gives each
operation as a sequential state transformer; N concurrent `get_model`
calls are `runGetModelN`.  The external gensim loader
(`ModelManager._load_model`) is modelled by a `LoadWorld`: the result and
the wall-clock duration of the k-th load execution, plus the count of
executions so far. -/

/-- Catalog metadata of one entry of `ModelManager.model_config`. -/
structure ModelMeta where
  name : String
  description : String
  size_mb : Nat
  vocab_size : Nat
deriving DecidableEq, Repr

/-- `ModelManager.model_config`: the static catalog of loadable model
identifiers set up in `ModelManager.__init__`. -/
def model_config : List (String × ModelMeta) :=
  [("glove-wiki-gigaword-50",
    { name := "glove-wiki-gigaword-50",
      description := "GloVe 50D vectors trained on Wikipedia+Gigaword",
      size_mb := 69, vocab_size := 400000 }),
   ("glove-wiki-gigaword-100",
    { name := "glove-wiki-gigaword-100",
      description := "GloVe 100D vectors trained on Wikipedia+Gigaword",
      size_mb := 128, vocab_size := 400000 }),
   ("glove-wiki-gigaword-200",
    { name := "glove-wiki-gigaword-200",
      description := "GloVe 200D vectors trained on Wikipedia+Gigaword",
      size_mb := 252, vocab_size := 400000 }),
   ("glove-wiki-gigaword-300",
    { name := "glove-wiki-gigaword-300",
      description := "GloVe 300D vectors trained on Wikipedia+Gigaword",
      size_mb := 376, vocab_size := 400000 }),
   ("glove-twitter-25",
    { name := "glove-twitter-25",
      description := "GloVe 25D vectors trained on Twitter (2B tweets)",
      size_mb := 104, vocab_size := 1193514 }),
   ("glove-twitter-50",
    { name := "glove-twitter-50",
      description := "GloVe 50D vectors trained on Twitter (2B tweets)",
      size_mb := 205, vocab_size := 1193514 }),
   ("glove-twitter-100",
    { name := "glove-twitter-100",
      description := "GloVe 100D vectors trained on Twitter (2B tweets)",
      size_mb := 405, vocab_size := 1193514 }),
   ("glove-twitter-200",
    { name := "glove-twitter-200",
      description := "GloVe 200D vectors trained on Twitter (2B tweets)",
      size_mb := 805, vocab_size := 1193514 }),
   ("word2vec-google-news-300",
    { name := "word2vec-google-news-300",
      description := "Word2Vec 300D vectors trained on Google News (3B words)",
      size_mb := 1662, vocab_size := 3000000 }),
   ("fasttext-wiki-news-subwords-300",
    { name := "fasttext-wiki-news-subwords-300",
      description := "FastText 300D vectors with subword info (2M vocab)",
      size_mb := 958, vocab_size := 999999 })]

/-- Lookup in an association list modelling a Python dict. -/
def lookupA {β : Type} (l : List (String × β)) (k : String) : Option β :=
  (l.find? (fun p => p.1 == k)).map (fun p => p.2)

/-- Dict assignment `d[k] = v`: replace in place when the key is present
(keys are unique in every reachable state), else append (Python dicts
keep insertion order). -/
def updA {β : Type} : List (String × β) → String → β → List (String × β)
  | [], k, v => [(k, v)]
  | p :: rest, k, v =>
    if p.1 == k then (k, v) :: rest else p :: updA rest k v

/-- Dict deletion `del d[k]`. -/
def eraseA {β : Type} (l : List (String × β)) (k : String) :
    List (String × β) :=
  l.filter (fun p => !(p.1 == k))

/-- The mutable state of a `ModelManager`: the cache of loaded models and
the recorded load durations.  `α` is the type of loaded model objects. -/
structure MgrState (α : Type) where
  loaded_models : List (String × α)
  model_load_times : List (String × ℚ)

/-- `ModelManager.__init__`: both dicts start empty. -/
def initState (α : Type) : MgrState α :=
  { loaded_models := [], model_load_times := [] }

/-- The environment of loads: `behavior k` is the result of the k-th
execution of `ModelManager._load_model` (an error string models the
message of the exception it raises), `durations k` its wall-clock
duration, and `calls` counts the executions performed so far. -/
structure LoadWorld (α : Type) where
  behavior : Nat → Except String α
  durations : Nat → ℚ
  calls : Nat

/-- Message of the `ModelError` raised for an identifier outside the
catalog. -/
def unknownModelMsg (name : String) : String :=
  "Unknown model " ++ pyQuote name ++ ". Available models: " ++
  pyStrListRepr (model_config.map (fun p => p.1))

/-- Message of the `ModelError` raised when the load itself fails. -/
def failedLoadMsg (name inner : String) : String :=
  "Failed to load model " ++ pyQuote name ++ ": " ++ inner

/-- The load-and-publish part of `get_model` (reached when there is no
usable cache entry): validate against the catalog, then execute the load;
on success cache the model and its duration, on failure raise a
`ModelError` and cache nothing. -/
def getModelLoad {α : Type} (s : MgrState α) (w : LoadWorld α) (name : String) :
    Except PyExc α × MgrState α × LoadWorld α :=
  if (lookupA model_config name).isNone then
    (.error (.modelError (unknownModelMsg name)), s, w)
  else
    match w.behavior w.calls with
    | .ok m =>
      (.ok m,
       { loaded_models := updA s.loaded_models name m,
         model_load_times := updA s.model_load_times name (w.durations w.calls) },
       { w with calls := w.calls + 1 })
    | .error e =>
      (.error (.modelError (failedLoadMsg name e)), s,
       { w with calls := w.calls + 1 })

/-- `ModelManager.get_model`: return the cached model unless
`force_reload` is set; otherwise validate and load via `getModelLoad`.
The body runs under the manager lock, so it is one atomic step. -/
def get_model {α : Type} (s : MgrState α) (w : LoadWorld α) (name : String)
    (force_reload : Bool) : Except PyExc α × MgrState α × LoadWorld α :=
  match lookupA s.loaded_models name with
  | some m => if force_reload then getModelLoad s w name else (.ok m, s, w)
  | none => getModelLoad s w name

/-- N serialized `get_model(name)` calls (the lock serializes concurrent
callers; all callers pass `force_reload = False`): the list of the N
results together with the final state and load environment. -/
def runGetModelN {α : Type} (name : String) :
    Nat → MgrState α → LoadWorld α →
    List (Except PyExc α) × MgrState α × LoadWorld α
  | 0, s, w => ([], s, w)
  | n + 1, s, w =>
    let step := get_model s w name false
    let rest := runGetModelN name n step.2.1 step.2.2
    (step.1 :: rest.1, rest.2.1, rest.2.2)

/-- `ModelManager.unload_model`: when the model is cached, delete it and
(when present) its recorded load time, returning `True`; else `False`. -/
def unload_model {α : Type} (s : MgrState α) (name : String) :
    Bool × MgrState α :=
  if (lookupA s.loaded_models name).isSome then
    (true,
     { loaded_models := eraseA s.loaded_models name,
       model_load_times :=
         if (lookupA s.model_load_times name).isSome then
           eraseA s.model_load_times name
         else s.model_load_times })
  else (false, s)

/-- `ModelManager.unload_all_models`: clear both dicts. -/
def unload_all_models {α : Type} (_s : MgrState α) : MgrState α :=
  { loaded_models := [], model_load_times := [] }

/-- The invariant of claim C10: every identifier with a recorded load
time is a loaded model. -/
def LoadTimesSub {α : Type} (s : MgrState α) : Prop :=
  ∀ p ∈ s.model_load_times, (lookupA s.loaded_models p.1).isSome = true

/-! ## Memory estimate (`ModelManager.get_memory_usage_mb`) -/

/-- Python `round` to an integer with the round-half-to-even rule,
on exact rationals (the binary-float representation of the interim
values is abstracted away). -/
def pyRoundHalfEven (q : ℚ) : ℤ :=
  let f : ℤ := ⌊q⌋
  let r : ℚ := q - (f : ℚ)
  if r < 1 / 2 then f
  else if 1 / 2 < r then f + 1
  else if f % 2 = 0 then f else f + 1

/-- Python `round(x, 2)`. -/
def pyRound2 (q : ℚ) : ℚ := ((pyRoundHalfEven (q * 100) : ℤ) : ℚ) / 100

/-- For the memory estimate, a cached model object is abstracted to
`some (vocabSize, vectorSize)` when both `key_to_index` and
`vector_size` are available (as they are on every `KeyedVectors`), and
`none` when the size cannot be determined (missing attributes or a
raising access, the `except: pass` path). -/
def memContribution (p : String × Option (Nat × Nat)) : ℚ :=
  match p.2 with
  | some (v, d) => ((v : ℚ) * (d : ℚ) * 4) / (1024 * 1024)
  | none => 0

/-- The accumulation loop of `get_memory_usage_mb`: models whose size
cannot be determined are skipped. -/
def memLoop : List (String × Option (Nat × Nat)) → ℚ
  | [] => 0
  | (_, none) :: rest => memLoop rest
  | (_, some (v, d)) :: rest =>
    ((v : ℚ) * (d : ℚ) * 4) / (1024 * 1024) + memLoop rest

/-- `ModelManager.get_memory_usage_mb`: sum the per-model estimates and
round the total to two decimal places. -/
def get_memory_usage_mb (loaded : List (String × Option (Nat × Nat))) : ℚ :=
  pyRound2 (memLoop loaded)

/-! ## Concrete instances used by witnesses and counterexamples -/

/-- A model with an empty vocabulary. -/
def emptyModel : KeyedVectors :=
  { indexToKey := [], vec := fun _ => [], vectorSize := 0 }

/-- A one-word model whose only word `ab` is too short to be clean and
which contains none of the curated fallback words. -/
def abModel : KeyedVectors :=
  { indexToKey := ["ab"], vec := fun _ => [1], vectorSize := 1 }

/-- A one-word model whose word `cat` is clean. -/
def catModel : KeyedVectors :=
  { indexToKey := ["cat"], vec := fun _ => [1], vectorSize := 1 }

/-- A two-word model with distinct vectors, for similarity claims. -/
def pairModel : KeyedVectors :=
  { indexToKey := ["aa", "bb"],
    vec := fun w => if w = "aa" then [1, 2] else [2, 1], vectorSize := 2 }

/-- A load environment whose every load succeeds with the model `7`. -/
def okWorld : LoadWorld Nat :=
  { behavior := fun _ => .ok 7, durations := fun _ => 0, calls := 0 }

/-- A load environment whose k-th load fails with message `e0` for the
first execution and `e1` afterwards. -/
def failWorld : LoadWorld Nat :=
  { behavior := fun k => .error (if k = 0 then "e0" else "e1"),
    durations := fun _ => 0, calls := 0 }

/-- A manager state with one loaded model and its recorded load time. -/
def exMgrState : MgrState Nat :=
  { loaded_models := [("glove-twitter-25", 7)],
    model_load_times := [("glove-twitter-25", 2)] }

/-- The result `get_random_word` produces on `catModel` with the
constant-zero draw stream. -/
def catRandomResult : RandomWordResult :=
  { word := "cat", model := "m", batchAttempt := 1, batchSize := 10,
    commonWordsPool := 1, totalVocabSize := 1, wordIndex := some 0,
    status := "success", fallbackUsed := false }

/-- The result `get_random_word` produces on `abModel` with the
constant-zero draw stream and choice index 0: every round rejects `ab`,
and the fallback list contains no word of the vocabulary, so the plain
`random.choice` fallback word `word` is returned. -/
def abRandomResult : RandomWordResult :=
  { word := "word", model := "m", batchAttempt := 5, batchSize := 10,
    commonWordsPool := 1, totalVocabSize := 1, wordIndex := none,
    status := "success", fallbackUsed := true }

/-! ## Helper lemmas -/

/-- The accumulation loop of the memory estimate equals the sum of the
per-model contributions. -/
theorem memLoop_eq_sum (l : List (String × Option (Nat × Nat))) :
    memLoop l = (l.map memContribution).sum := by
  induction l with
  | nil => rfl
  | cons p rest ih =>
    obtain ⟨n, v⟩ := p
    cases v with
    | none => simpa [memLoop, memContribution] using ih
    | some vd =>
      obtain ⟨a, b⟩ := vd
      simpa [memLoop, memContribution] using ih

/-- Characterization of the batch-comparison loop: the success counter
counts the pairs with both words present, the success list has that
length, the failure list is the indexed failures of exactly the other
pairs, and the two tallies add up to the input length. -/
theorem batchStep_spec (m : KeyedVectors) (comps : List PairCmp) :
    ∀ i : Nat,
      (batchStep m i comps).2.1 = comps.countP (fun c => bothExist m c) ∧
      (batchStep m i comps).1.length = (batchStep m i comps).2.1 ∧
      (batchStep m i comps).2.2 =
        ((comps.enumFrom i).filter (fun ic => !(bothExist m ic.2))).map
          (fun ic => mkFailure m ic.1 ic.2) ∧
      (batchStep m i comps).2.1 + (batchStep m i comps).2.2.length =
        comps.length := by
  induction comps with
  | nil => intro i; simp [batchStep]
  | cons c rest ih =>
    intro i
    obtain ⟨ih1, ih2, ih3, ih4⟩ := ih (i + 1)
    by_cases h : bothExist m c = true
    · refine ⟨?_, ?_, ?_, ?_⟩
      · simp [batchStep, h, ih1, List.countP_cons]
      · simp [batchStep, h, ih2]
      · simp [batchStep, h, ih3]
      · simp [batchStep, h]
        omega
    · simp only [Bool.not_eq_true] at h
      refine ⟨?_, ?_, ?_, ?_⟩
      · simp [batchStep, h, ih1, List.countP_cons]
      · simp [batchStep, h, ih2]
      · simp [batchStep, h, ih3]
      · simp [batchStep, h]
        omega

/-- Updating a key makes it present with the new value. -/
theorem lookupA_updA_self {β : Type} (l : List (String × β)) (k : String) (v : β) :
    lookupA (updA l k v) k = some v := by
  induction l with
  | nil => simp [updA, lookupA]
  | cons p rest ih =>
    by_cases h : p.1 = k
    · simp [updA, lookupA, h]
    · rw [updA, if_neg (by simpa using h)]
      rw [lookupA, List.find?_cons_of_neg _ (by simpa using h)]
      exact ih

/-- Updating one key leaves lookups of other keys unchanged. -/
theorem lookupA_updA_ne {β : Type} (l : List (String × β)) (k k2 : String) (v : β)
    (h : k2 ≠ k) : lookupA (updA l k v) k2 = lookupA l k2 := by
  induction l with
  | nil =>
    rw [updA, lookupA, lookupA]
    rw [List.find?_cons_of_neg _ (by simpa using Ne.symm h)]
  | cons p rest ih =>
    by_cases hp : p.1 = k
    · rw [updA, if_pos (by simpa using hp)]
      rw [lookupA, lookupA]
      rw [List.find?_cons_of_neg _ (by simpa using Ne.symm h)]
      rw [List.find?_cons_of_neg _ (by simp [hp, Ne.symm h])]
    · rw [updA, if_neg (by simpa using hp)]
      by_cases hq : p.1 = k2
      · rw [lookupA, lookupA]
        rw [List.find?_cons_of_pos _ (by simpa using hq),
          List.find?_cons_of_pos _ (by simpa using hq)]
      · rw [lookupA, lookupA] at ih ⊢
        rw [List.find?_cons_of_neg _ (by simpa using hq),
          List.find?_cons_of_neg _ (by simpa using hq)]
        exact ih

/-- A present key stays present across an update of any key. -/
theorem lookupA_updA_isSome {β : Type} (l : List (String × β)) (k k2 : String)
    (v : β) (h : (lookupA l k2).isSome = true) :
    (lookupA (updA l k v) k2).isSome = true := by
  by_cases hk : k2 = k
  · subst hk
    rw [lookupA_updA_self]
    rfl
  · rw [lookupA_updA_ne l k k2 v hk]
    exact h

/-- Membership after an update: the new pair or an old one. -/
theorem mem_updA {β : Type} (l : List (String × β)) (k : String) (v : β)
    (p : String × β) (hp : p ∈ updA l k v) : p = (k, v) ∨ p ∈ l := by
  induction l with
  | nil => simpa [updA] using hp
  | cons q rest ih =>
    by_cases h : q.1 = k
    · rw [updA, if_pos (by simpa using h)] at hp
      rcases List.mem_cons.1 hp with h1 | h1
      · exact Or.inl h1
      · exact Or.inr (List.mem_cons_of_mem _ h1)
    · rw [updA, if_neg (by simpa using h)] at hp
      rcases List.mem_cons.1 hp with h1 | h1
      · exact Or.inr (h1 ▸ List.mem_cons_self _ _)
      · rcases ih h1 with h2 | h2
        · exact Or.inl h2
        · exact Or.inr (List.mem_cons_of_mem _ h2)

/-- Membership after a deletion: an old pair with a different key. -/
theorem mem_eraseA {β : Type} (l : List (String × β)) (k : String)
    (p : String × β) (hp : p ∈ eraseA l k) : p ∈ l ∧ p.1 ≠ k := by
  have := List.mem_filter.1 hp
  refine ⟨this.1, ?_⟩
  simpa using this.2

/-- Deleting one key leaves lookups of other keys unchanged. -/
theorem lookupA_eraseA_ne {β : Type} (l : List (String × β)) (k k2 : String)
    (h : k2 ≠ k) : lookupA (eraseA l k) k2 = lookupA l k2 := by
  induction l with
  | nil => rfl
  | cons p rest ih =>
    by_cases hp : p.1 = k
    · rw [eraseA, List.filter_cons]
      rw [show (!(p.1 == k)) = false by simpa using hp]
      simp only [lookupA, List.find?] at ih ⊢
      rw [show (p.1 == k2) = false by simp [hp, Ne.symm h]]
      exact ih
    · rw [eraseA, List.filter_cons]
      rw [show (!(p.1 == k)) = true by simpa using hp]
      by_cases hq : p.1 = k2
      · simp [lookupA, List.find?, hq]
      · simp only [lookupA, List.find?] at ih ⊢
        rw [show (p.1 == k2) = false by simpa using hq]
        exact ih

/-- A pair of the list has a present key. -/
theorem mem_lookupA_isSome {β : Type} (l : List (String × β))
    (p : String × β) (hp : p ∈ l) : (lookupA l p.1).isSome = true := by
  have : (l.find? (fun q => q.1 == p.1)).isSome := by
    rw [List.find?_isSome]
    exact ⟨p, hp, by simp⟩
  simpa [lookupA] using this

/-- The load-and-publish part of `get_model` preserves the load-times
invariant: either the state is unchanged, or both dicts gain the same
key. -/
theorem getModelLoad_preserves {α : Type} (s : MgrState α) (w : LoadWorld α)
    (name : String) (h : LoadTimesSub s) :
    LoadTimesSub (getModelLoad s w name).2.1 := by
  unfold getModelLoad
  split
  · exact h
  · split
    · intro p hp
      rcases mem_updA _ _ _ _ hp with h1 | h1
      · rw [h1]
        rw [lookupA_updA_self]
        rfl
      · exact lookupA_updA_isSome _ _ _ _ (h p h1)
    · exact h

/-! ## Claim theorems -/

/-- Claim C9: `check_word_exists` is a pure membership test in the
word-to-rank mapping: the reported flag is true exactly for vocabulary
members (hence false for any absent word), the status is always
`success`, and — the embedding being total — no exception is raised. -/
theorem claim_C9 (m : KeyedVectors) (word model_name : String) :
    ((check_word_exists m word model_name).wordExists = true ↔
      word ∈ m.indexToKey) ∧
    (check_word_exists m word model_name).status = "success" := by
  refine ⟨?_, rfl⟩
  show word_exists_in_model m word = true ↔ word ∈ m.indexToKey
  simp [word_exists_in_model, List.contains]

/-- Claim C8, amended: `get_memory_usage_mb` returns the sum over the
loaded models of vocabularySize × vectorDimensionality × 4 bytes divided
by 1024 × 1024, *rounded to two decimal places*; a model whose size
cannot be determined contributes zero (removing such an entry does not
change the result). -/
theorem claim_C8_amended :
    (∀ loaded, get_memory_usage_mb loaded =
      pyRound2 ((loaded.map memContribution).sum)) ∧
    (∀ pre post name,
      get_memory_usage_mb (pre ++ (name, none) :: post) =
        get_memory_usage_mb (pre ++ post)) := by
  constructor
  · intro l
    simp [get_memory_usage_mb, memLoop_eq_sum]
  · intro pre post name
    simp [get_memory_usage_mb, memLoop_eq_sum, memContribution]

/-- Claim C8, counterexample to the claim as stated: for one loaded
model of vocabulary size 1 and dimensionality 1 the sum prescribed by
the claim is 4/1048576 MB, but the function returns 0 (the total is
rounded to two decimal places before being returned). -/
theorem claim_C8_counterexample :
    get_memory_usage_mb [("m", some (1, 1))] = 0 ∧
    ([("m", some (1, 1))].map memContribution).sum = 1 / 262144 ∧
    (0 : ℚ) ≠ 1 / 262144 := by
  have hloop : memLoop [("m", some (1, 1))] = 1 / 262144 := by
    simp [memLoop]
    norm_num
  have hfloor : ⌊(1 / 262144 : ℚ) * 100⌋ = 0 := by
    rw [Int.floor_eq_zero_iff]
    constructor <;> norm_num
  refine ⟨?_, ?_, by norm_num⟩
  · rw [get_memory_usage_mb, hloop, pyRound2, pyRoundHalfEven]
    rw [hfloor]
    norm_num
  · rw [← memLoop_eq_sum, hloop]

/-- Claim C3: `compare_words_batch` evaluates each pair independently:
the totals always satisfy `successful + failed = total = length`, the
failure count equals the failure-detail list length, the successes count
exactly the pairs with both words in the vocabulary, and the failure
list records index and error detail of exactly the other pairs;
in particular one valid and one invalid pair yield exactly one success
and one failure. -/
theorem claim_C3 :
    (∀ (m : KeyedVectors) (comps : List PairCmp) (name : String),
      (compare_words_batch m comps name).totalComparisons = comps.length ∧
      (compare_words_batch m comps name).successfulComparisons +
        (compare_words_batch m comps name).failedComparisons =
          comps.length ∧
      (compare_words_batch m comps name).failedComparisons =
        (compare_words_batch m comps name).failures.length ∧
      (compare_words_batch m comps name).successfulComparisons =
        comps.countP (fun c => bothExist m c) ∧
      (compare_words_batch m comps name).results.length =
        (compare_words_batch m comps name).successfulComparisons ∧
      (compare_words_batch m comps name).failures =
        ((comps.enum.filter (fun ic => !(bothExist m ic.2))).map
          (fun ic => mkFailure m ic.1 ic.2))) ∧
    (compare_words_batch catModel
        [{ word1 := "cat", word2 := "cat" },
         { word1 := "cat", word2 := "zz" }] "m").successfulComparisons = 1 ∧
    (compare_words_batch catModel
        [{ word1 := "cat", word2 := "cat" },
         { word1 := "cat", word2 := "zz" }] "m").failedComparisons = 1 := by
  refine ⟨?_, ?_, ?_⟩
  · intro m comps name
    obtain ⟨h1, h2, h3, h4⟩ := batchStep_spec m comps 0
    refine ⟨rfl, ?_, rfl, h1, ?_, h3⟩
    · show (batchStep m 0 comps).2.1 + (batchStep m 0 comps).2.2.length =
        comps.length
      exact h4
    · exact h2
  · decide
  · decide

/-- Claim C10: initialization, `get_model`, `unload_model` and
`unload_all_models` all preserve the invariant that every identifier
with a recorded load time is also a loaded model: a load time is only
recorded together with caching the model, and both records are removed
together on unload. -/
theorem claim_C10 (α : Type) :
    LoadTimesSub (initState α) ∧
    (∀ (s : MgrState α) (w : LoadWorld α) (name : String) (fr : Bool),
      LoadTimesSub s → LoadTimesSub (get_model s w name fr).2.1) ∧
    (∀ (s : MgrState α) (name : String),
      LoadTimesSub s → LoadTimesSub (unload_model s name).2) ∧
    (∀ s : MgrState α, LoadTimesSub s → LoadTimesSub (unload_all_models s)) := by
  refine ⟨?_, ?_, ?_, ?_⟩
  · intro p hp
    simp [initState] at hp
  · intro s w name fr h
    unfold get_model
    split
    · split
      · exact getModelLoad_preserves s w name h
      · exact h
    · exact getModelLoad_preserves s w name h
  · intro s name h
    unfold unload_model
    split
    · intro p hp
      simp only at hp
      split at hp
      · obtain ⟨hmem, hne⟩ := mem_eraseA _ _ _ hp
        rw [lookupA_eraseA_ne _ _ _ hne]
        exact h p hmem
      · rename_i hnone
        by_cases hk : p.1 = name
        · exact absurd (hk ▸ mem_lookupA_isSome _ _ hp) (by simpa using hnone)
        · rw [lookupA_eraseA_ne _ _ _ hk]
          exact h p hp
    · exact h
  · intro s _ p hp
    simp [unload_all_models] at hp

/-- Claim C10 witness: the invariant is preserved on a concrete state
holding one loaded model with a recorded load time. -/
theorem claim_C10_witness :
    LoadTimesSub (get_model exMgrState okWorld "glove-wiki-gigaword-50" false).2.1 ∧
    LoadTimesSub (unload_model exMgrState "glove-twitter-25").2 :=
  ⟨(claim_C10 Nat).2.1 exMgrState okWorld "glove-wiki-gigaword-50" false
    (by unfold LoadTimesSub; decide),
   (claim_C10 Nat).2.2.1 exMgrState "glove-twitter-25"
    (by unfold LoadTimesSub; decide)⟩

/-- Claim C2, amended: for an identifier outside the catalog (and not
sitting in the cache, as no reachable state caches uncatalogued names),
`get_model` raises the generic `ModelError` with the "Unknown model"
message — not a `ModelNotFoundError` — performs no load, and leaves the
manager state untouched. -/
theorem claim_C2_amended (α : Type) (s : MgrState α) (w : LoadWorld α)
    (name : String) (fr : Bool)
    (hcat : lookupA model_config name = none)
    (hcold : lookupA s.loaded_models name = none) :
    get_model s w name fr =
      (.error (.modelError (unknownModelMsg name)), s, w) := by
  unfold get_model getModelLoad
  rw [hcold, hcat]
  rfl

/-- Claim C2 witness: the amended claim at the uncatalogued identifier
`phantom-model` on a cold manager. -/
theorem claim_C2_witness :
    get_model (initState Nat) okWorld "phantom-model" false =
      (.error (.modelError (unknownModelMsg "phantom-model")),
       initState Nat, okWorld) :=
  claim_C2_amended Nat (initState Nat) okWorld "phantom-model" false
    (by decide) rfl

/-- Claim C2, counterexample to the claim as stated: for the
uncatalogued identifier `phantom-model`, `get_model` raises a plain
`ModelError` — the raised value is not a `ModelNotFoundError` instance
(the source raises `ModelError(f"Unknown model ...")` directly, and
`ModelNotFoundError` is raised only by the separate route-level
validation in `utils/validation.py`).  The load-never-starts and
state-unchanged parts of the claim do hold (see the amended theorem). -/
theorem claim_C2_counterexample :
    (get_model (initState Nat) okWorld "phantom-model" false).1 =
      .error (.modelError (unknownModelMsg "phantom-model")) ∧
    PyExc.isModelNotFound (.modelError (unknownModelMsg "phantom-model")) = false ∧
    lookupA model_config "phantom-model" = none := by
  exact ⟨rfl, rfl, by decide⟩

/-- Once the model is cached, every further serialized `get_model` call
returns the cached object and touches neither the state nor the load
environment. -/
theorem runGetModelN_cached {α : Type} (name : String) (mdl : α) :
    ∀ (n : Nat) (s : MgrState α) (w : LoadWorld α),
      lookupA s.loaded_models name = some mdl →
      runGetModelN name n s w = (List.replicate n (.ok mdl), s, w) := by
  intro n
  induction n with
  | zero => intro s w _; rfl
  | succ k ih =>
    intro s w h
    have hstep : get_model s w name false = (.ok mdl, s, w) := by
      unfold get_model
      rw [h]
      rfl
    rw [runGetModelN, hstep]
    rw [ih s w h]
    rfl

/-- Claim C1, amended: N ≥ 1 serialized `get_model` calls on a cold
cache *whose first load succeeds* execute the loader exactly once, and
every caller receives the same loaded model object; callers arriving
during the load block on the manager lock and then take the cached
result rather than loading redundantly.  (When the load fails, nothing
is cached and later callers re-execute the load — see the
counterexample.) -/
theorem claim_C1_amended (α : Type) (s : MgrState α) (w : LoadWorld α)
    (name : String) (mdl : α) (n : Nat)
    (hcold : lookupA s.loaded_models name = none)
    (hcat : (lookupA model_config name).isSome = true)
    (hload : w.behavior w.calls = .ok mdl) :
    (runGetModelN name (n + 1) s w).1 = List.replicate (n + 1) (.ok mdl) ∧
    (runGetModelN name (n + 1) s w).2.2.calls = w.calls + 1 := by
  obtain ⟨meta, hmeta⟩ := Option.isSome_iff_exists.1 hcat
  have hstep : get_model s w name false =
      (.ok mdl,
       { loaded_models := updA s.loaded_models name mdl,
         model_load_times := updA s.model_load_times name (w.durations w.calls) },
       { w with calls := w.calls + 1 }) := by
    unfold get_model getModelLoad
    rw [hcold, hmeta, hload]
    rfl
  have hcached : lookupA (updA s.loaded_models name mdl) name = some mdl :=
    lookupA_updA_self _ _ _
  rw [runGetModelN, hstep]
  rw [runGetModelN_cached name mdl n _ _ hcached]
  exact ⟨rfl, rfl⟩

/-- Claim C1 witness: three serialized calls on a cold manager whose
loads all succeed with the model `7` yield three `.ok 7` results and a
single loader execution. -/
theorem claim_C1_witness :
    (runGetModelN "glove-twitter-25" 3 (initState Nat) okWorld).1 =
      List.replicate 3 (.ok 7) ∧
    (runGetModelN "glove-twitter-25" 3 (initState Nat) okWorld).2.2.calls = 1 :=
  claim_C1_amended Nat (initState Nat) okWorld "glove-twitter-25" 7 2
    rfl (by decide) rfl

/-- Claim C1, counterexample to the claim as stated: two serialized
calls for a catalogued identifier on a cold cache whose loads fail
execute the loader twice — a failure is not cached, so the second caller
starts a redundant load — and the two callers receive different errors,
refuting both the "executed exactly once" and the "same error on
failure" parts. -/
theorem claim_C1_counterexample :
    (runGetModelN "glove-twitter-25" 2 (initState Nat) failWorld).2.2.calls = 2 ∧
    (runGetModelN "glove-twitter-25" 2 (initState Nat) failWorld).1 =
      [.error (.modelError (failedLoadMsg "glove-twitter-25" "e0")),
       .error (.modelError (failedLoadMsg "glove-twitter-25" "e1"))] ∧
    failedLoadMsg "glove-twitter-25" "e0" ≠ failedLoadMsg "glove-twitter-25" "e1" := by
  refine ⟨rfl, rfl, by decide⟩

/-- A word accepted inside a batch was one of the drawn ranks, is clean,
and is verified present in the vocabulary. -/
theorem findCleanInBatch_spec (m : KeyedVectors) :
    ∀ (l : List Nat) (wd : String) (i : Nat),
      findCleanInBatch m l = some (wd, i) →
      i ∈ l ∧ is_clean_word wd = true ∧ word_exists_in_model m wd = true := by
  intro l
  induction l with
  | nil => intro wd i h; simp [findCleanInBatch] at h
  | cons j rest ih =>
    intro wd i h
    rw [findCleanInBatch] at h
    split at h
    · split at h
      · rename_i w2 _ hc
        obtain ⟨hcl, hex⟩ : is_clean_word w2 = true ∧
            word_exists_in_model m w2 = true := by simpa using hc
        injection h with h
        injection h with h1 h2
        subst h1
        subst h2
        exact ⟨List.mem_cons_self _ _, hcl, hex⟩
      · obtain ⟨h1, h2, h3⟩ := ih wd i h
        exact ⟨List.mem_cons_of_mem _ h1, h2, h3⟩
    · obtain ⟨h1, h2, h3⟩ := ih wd i h
      exact ⟨List.mem_cons_of_mem _ h1, h2, h3⟩

/-- Every drawn rank lies below the sampling bound (the raw draw is
reduced modulo the positive bound). -/
theorem batchIndices_lt (draws : Nat → Nat) (maxIdx attempt batchSize : Nat)
    (hpos : 0 < maxIdx) :
    ∀ i ∈ batchIndices draws maxIdx attempt batchSize, i < maxIdx := by
  intro i hi
  rw [batchIndices] at hi
  obtain ⟨j, _, rfl⟩ := List.mem_map.1 hi
  exact Nat.mod_lt _ hpos

/-- A word accepted by the retry loop is clean, verified present, and
drawn from a rank below the sampling bound. -/
theorem randomWordLoop_spec (m : KeyedVectors) (draws : Nat → Nat)
    (maxIdx batchSize : Nat) (hpos : 0 < maxIdx) :
    ∀ (rem attempt : Nat) (wd : String) (i att : Nat),
      randomWordLoop m draws maxIdx batchSize attempt rem = some (wd, i, att) →
      is_clean_word wd = true ∧ word_exists_in_model m wd = true ∧
      i < maxIdx := by
  intro rem
  induction rem with
  | zero => intro attempt wd i att h; simp [randomWordLoop] at h
  | succ k ih =>
    intro attempt wd i att h
    rw [randomWordLoop] at h
    split at h
    · rename_i w2 i2 hf
      obtain ⟨hmem, hcl, hex⟩ := findCleanInBatch_spec m _ _ _ hf
      injection h with h
      injection h with h1 h2
      injection h2 with h2 h3
      subst h1
      subst h2
      exact ⟨hcl, hex, batchIndices_lt draws maxIdx attempt batchSize hpos _ hmem⟩
    · exact ih (attempt + 1) wd i att h

/-- A positionally chosen fallback word is one of the fallback words. -/
theorem fallback_getD_mem (choiceIdx : Nat) :
    fallback_words.getD (choiceIdx % fallback_words.length) "" ∈
      fallback_words := by
  have hlt : choiceIdx % fallback_words.length < fallback_words.length :=
    Nat.mod_lt _ (by decide)
  rw [List.getD_eq_getElem _ _ hlt]
  exact List.getElem_mem hlt

/-- `_get_fallback_word` always returns a curated fallback word. -/
theorem get_fallback_word_mem (m : KeyedVectors) (choiceIdx : Nat) :
    get_fallback_word m choiceIdx ∈ fallback_words := by
  unfold get_fallback_word
  split
  · split
    · rename_i w hw
      exact List.mem_of_find?_eq_some hw
    · exact fallback_getD_mem choiceIdx
  · exact fallback_getD_mem choiceIdx

/-- When the model is truthy and at least one fallback word is in the
vocabulary, `_get_fallback_word` returns a verified-present word (the
first present one). -/
theorem get_fallback_word_present (m : KeyedVectors) (choiceIdx : Nat)
    (hvocab : get_vocabulary_size m ≠ 0)
    (hany : fallback_words.any (fun fw => word_exists_in_model m fw) = true) :
    word_exists_in_model m (get_fallback_word m choiceIdx) = true := by
  have hsome : (fallback_words.find? (fun fw => word_exists_in_model m fw)).isSome := by
    rw [List.find?_isSome]
    simpa [List.any_eq_true] using hany
  obtain ⟨w, hw⟩ := Option.isSome_iff_exists.1 hsome
  unfold get_fallback_word
  rw [if_pos hvocab, hw]
  exact List.find?_some hw

/-- Claim C4, amended: on every model with a non-empty vocabulary,
`get_random_word` never fails: whatever the draws, it returns a word,
degrading to the fallback when no clean word is found within
`max_retries` rounds of `batch_size` draws.  (On an empty vocabulary the
source instead raises `ModelError` — see the counterexample.) -/
theorem claim_C4_amended (m : KeyedVectors) (model_name : String)
    (draws : Nat → Nat) (choiceIdx batch_size max_retries : Nat)
    (h : get_vocabulary_size m ≠ 0) :
    isOkE (get_random_word m model_name draws choiceIdx batch_size max_retries) =
      true := by
  simp only [get_random_word]
  split
  · rename_i h0
    exact absurd h0 h
  · split <;> rfl

/-- Claim C4 witness: the amended claim on a concrete one-word model. -/
theorem claim_C4_witness :
    isOkE (get_random_word catModel "m" (fun _ => 0) 0 10 5) = true :=
  claim_C4_amended catModel "m" (fun _ => 0) 0 10 5 (by decide)

/-- Claim C4, counterexample to the claim as stated: on the table with
an empty vocabulary, `get_random_word` fails with
`ModelError("Model vocabulary is empty")` instead of returning a word. -/
theorem claim_C4_counterexample :
    get_random_word emptyModel "m" (fun _ => 0) 0 10 5 =
      .error (.modelError "Model vocabulary is empty") := rfl

/-- Claim C5, amended: every word returned by `get_random_word` either
(a) satisfies the clean-word criteria, is drawn from a rank strictly
below `min 15000 vocabularySize`, and is verified present in the
vocabulary, or (b) is a curated fallback word — verified present in the
vocabulary whenever any fallback word is present, but possibly absent
when no fallback word occurs in the vocabulary. -/
theorem claim_C5_amended (m : KeyedVectors) (model_name : String)
    (draws : Nat → Nat) (choiceIdx batch_size max_retries : Nat)
    (r : RandomWordResult)
    (h : get_random_word m model_name draws choiceIdx batch_size max_retries =
      .ok r) :
    (is_clean_word r.word = true ∧ word_exists_in_model m r.word = true ∧
      ∃ i, r.wordIndex = some i ∧ i < min 15000 (get_vocabulary_size m)) ∨
    (r.fallbackUsed = true ∧ r.word ∈ fallback_words ∧
      (fallback_words.any (fun fw => word_exists_in_model m fw) = true →
        word_exists_in_model m r.word = true)) := by
  simp only [get_random_word] at h
  split at h
  · exact absurd h (by simp)
  · rename_i h0
    have hpos : 0 < min 15000 (get_vocabulary_size m) :=
      lt_min (by norm_num) (Nat.pos_of_ne_zero h0)
    split at h
    · rename_i wd i att hloop
      obtain ⟨hcl, hex, hlt⟩ :=
        randomWordLoop_spec m draws _ batch_size hpos _ _ _ _ _ hloop
      injection h with h
      subst h
      exact Or.inl ⟨hcl, hex, i, rfl, hlt⟩
    · injection h with h
      subst h
      exact Or.inr ⟨rfl, get_fallback_word_mem m choiceIdx,
        fun hany => get_fallback_word_present m choiceIdx h0 hany⟩

/-- Claim C5 witness: the amended claim at the one-word model `catModel`
with the constant-zero draw stream, where sampling accepts `cat`. -/
theorem claim_C5_witness :
    (is_clean_word catRandomResult.word = true ∧
      word_exists_in_model catModel catRandomResult.word = true ∧
      ∃ i, catRandomResult.wordIndex = some i ∧
        i < min 15000 (get_vocabulary_size catModel)) ∨
    (catRandomResult.fallbackUsed = true ∧
      catRandomResult.word ∈ fallback_words ∧
      (fallback_words.any (fun fw => word_exists_in_model catModel fw) = true →
        word_exists_in_model catModel catRandomResult.word = true)) :=
  claim_C5_amended catModel "m" (fun _ => 0) 0 10 5 catRandomResult rfl

/-- Claim C5, counterexample to the claim as stated: on the model whose
only word is `ab` (not clean, and no fallback word is in the
vocabulary), `get_random_word` returns the fallback word `word`, which
is *not* present in the table's vocabulary — yet both branches of the
claim require the returned word to be present (branch (a) explicitly,
branch (b) as "a fallback word that is itself present"). -/
theorem claim_C5_counterexample :
    get_random_word abModel "m" (fun _ => 0) 0 10 5 = .ok abRandomResult ∧
    abRandomResult.word = "word" ∧
    word_exists_in_model abModel "word" = false :=
  ⟨rfl, rfl, rfl⟩

/-- The rational dot product as a finite sum over positions. -/
theorem dotQ_eq_range_sum (v : List ℚ) :
    ∀ w : List ℚ, dotQ v w =
      ∑ i in Finset.range (min v.length w.length), v.getD i 0 * w.getD i 0 := by
  induction v with
  | nil => intro w; simp [dotQ]
  | cons a v ih =>
    intro w
    cases w with
    | nil => simp [dotQ]
    | cons b w =>
      rw [dotQ, List.zipWith_cons_cons, List.sum_cons,
        show (List.zipWith (fun a b => a * b) v w).sum = dotQ v w from rfl,
        ih w, List.length_cons, List.length_cons, Nat.succ_min_succ,
        Finset.sum_range_succ']
      simp only [List.getD_cons_succ, List.getD_cons_zero]
      ring

/-- A dot product of a vector with itself is non-negative. -/
theorem dotQ_self_nonneg (v : List ℚ) : 0 ≤ dotQ v v := by
  rw [dotQ, List.zipWith_same]
  apply List.sum_nonneg
  intro x hx
  obtain ⟨a, _, rfl⟩ := List.mem_map.1 hx
  exact mul_self_nonneg a

/-- Cauchy–Schwarz for the rational dot product of two lists. -/
theorem dotQ_sq_le (v w : List ℚ) : dotQ v w ^ 2 ≤ dotQ v v * dotQ w w := by
  rw [dotQ_eq_range_sum v w, dotQ_eq_range_sum v v, dotQ_eq_range_sum w w]
  rw [Nat.min_self, Nat.min_self]
  simp only [← sq]
  refine (Finset.sum_mul_sq_le_sq_mul_sq _ _ _).trans
    (mul_le_mul ?_ ?_ ?_ ?_)
  · refine Finset.sum_le_sum_of_subset_of_nonneg
      (Finset.range_subset.2 (Nat.min_le_left _ _)) ?_
    intro i _ _
    positivity
  · refine Finset.sum_le_sum_of_subset_of_nonneg
      (Finset.range_subset.2 (Nat.min_le_right _ _)) ?_
    intro i _ _
    positivity
  · positivity
  · positivity

/-- The cosine similarity always lies in the interval `[-1, 1]` (with
the zero-denominator convention giving the value 0). -/
theorem cosineSim_abs_le_one (v w : List ℚ) : |cosineSim v w| ≤ 1 := by
  rw [cosineSim]
  have hA : (0 : ℝ) ≤ ((dotQ v v : ℚ) : ℝ) := by
    exact_mod_cast dotQ_self_nonneg v
  have hB : (0 : ℝ) ≤ ((dotQ w w : ℚ) : ℝ) := by
    exact_mod_cast dotQ_self_nonneg w
  have hab : ((dotQ v w : ℚ) : ℝ) ^ 2 ≤
      ((dotQ v v : ℚ) : ℝ) * ((dotQ w w : ℚ) : ℝ) := by
    exact_mod_cast dotQ_sq_le v w
  by_cases hz : Real.sqrt ((dotQ v v : ℚ) : ℝ) * Real.sqrt ((dotQ w w : ℚ) : ℝ) = 0
  · rw [hz, div_zero, abs_zero]
    norm_num
  · have hpos : 0 < Real.sqrt ((dotQ v v : ℚ) : ℝ) *
        Real.sqrt ((dotQ w w : ℚ) : ℝ) :=
      lt_of_le_of_ne (mul_nonneg (Real.sqrt_nonneg _) (Real.sqrt_nonneg _))
        (Ne.symm hz)
    rw [abs_div, abs_of_nonneg hpos.le, div_le_one hpos]
    have habs : |((dotQ v w : ℚ) : ℝ)| ≤
        Real.sqrt (((dotQ v v : ℚ) : ℝ) * ((dotQ w w : ℚ) : ℝ)) := by
      rw [← Real.sqrt_sq_eq_abs]
      exact Real.sqrt_le_sqrt hab
    rwa [Real.sqrt_mul hA] at habs

/-- Claim C6, amended: `compare_words` fails with a `ValidationError`
(not a `WordNotFoundError` instance) naming the *first* absent word in
check order — word1 before word2, so when both are absent only word1 is
named; when both words are present it returns their cosine similarity,
which lies in `[-1, 1]`. -/
theorem claim_C6_amended (m : KeyedVectors) (w1 w2 model_name : String) :
    (word_exists_in_model m w1 = false →
      compare_words m w1 w2 model_name =
        .error (.validationError (notFoundMsg w1))) ∧
    (word_exists_in_model m w1 = true → word_exists_in_model m w2 = false →
      compare_words m w1 w2 model_name =
        .error (.validationError (notFoundMsg w2))) ∧
    (word_exists_in_model m w1 = true → word_exists_in_model m w2 = true →
      compare_words m w1 w2 model_name =
        .ok { word1 := w1, word2 := w2,
              similarity := cosineSim (m.vec w1) (m.vec w2),
              model := model_name, status := "success" } ∧
      -1 ≤ cosineSim (m.vec w1) (m.vec w2) ∧
      cosineSim (m.vec w1) (m.vec w2) ≤ 1) := by
  refine ⟨?_, ?_, ?_⟩
  · intro h1
    simp [compare_words, h1]
  · intro h1 h2
    simp [compare_words, h1, h2]
  · intro h1 h2
    have hrange := abs_le.1 (cosineSim_abs_le_one (m.vec w1) (m.vec w2))
    exact ⟨by simp [compare_words, h1, h2], hrange.1, hrange.2⟩

/-- Claim C6 witness: the both-present branch of the amended claim on a
concrete two-word model. -/
theorem claim_C6_witness :
    compare_words pairModel "aa" "bb" "n" =
      .ok { word1 := "aa", word2 := "bb",
            similarity := cosineSim (pairModel.vec "aa") (pairModel.vec "bb"),
            model := "n", status := "success" } ∧
    -1 ≤ cosineSim (pairModel.vec "aa") (pairModel.vec "bb") ∧
    cosineSim (pairModel.vec "aa") (pairModel.vec "bb") ≤ 1 :=
  (claim_C6_amended pairModel "aa" "bb" "n").2.2 (by decide) (by decide)

/-- Claim C6, counterexample to the claim as stated: when *both* words
are absent the raised error names only word1 (never both), and the
raised value is a plain `ValidationError` — not a `WordNotFoundError`
instance as the claim (and the spec taxonomy, which maps the two classes
to different error codes) requires. -/
theorem claim_C6_counterexample :
    compare_words catModel "xx" "yy" "n" =
      .error (.validationError (notFoundMsg "xx")) ∧
    PyExc.isWordNotFound (.validationError (notFoundMsg "xx")) = false ∧
    word_exists_in_model catModel "yy" = false :=
  ⟨rfl, rfl, rfl⟩

/-- The head of the remainder of `dropWhile` does not satisfy the
predicate. -/
theorem dropWhile_head_false {α : Type} (p : α → Bool) :
    ∀ (l : List α) (c : α) (rest : List α),
      l.dropWhile p = c :: rest → p c = false := by
  intro l
  induction l with
  | nil => intro c rest h; simp at h
  | cons a t ih =>
    intro c rest h
    rw [List.dropWhile_cons] at h
    by_cases hp : p a = true
    · rw [if_pos hp] at h
      exact ih c rest h
    · rw [if_neg hp] at h
      injection h with h1 _
      subst h1
      exact Bool.eq_false_iff.2 hp

/-- A one-character stripped string is never a whitespace character. -/
theorem pyStripL_single (l : List Char) (c : Char)
    (h : pyStripL l = [c]) : isPySpace c = false := by
  rw [pyStripL] at h
  have h2 : (l.dropWhile isPySpace).reverse.dropWhile isPySpace = [c] := by
    have := congrArg List.reverse h
    simpa using this
  exact dropWhile_head_false _ _ _ _ h2

/-- A stripped string that lies in `WORD_BLACKLIST` is empty: the
non-empty blacklist entries are single whitespace characters, which
`strip` cannot leave at the boundary. -/
theorem strip_blacklist (word : String)
    (h : WORD_BLACKLIST.contains (pyStrip word) = true) :
    (pyStrip word).data = [] := by
  have hmem : pyStrip word ∈ WORD_BLACKLIST := by
    simpa [List.contains] using h
  have hdata : ∀ s : String, pyStrip word = s → (pyStrip word).data = s.data :=
    fun s hs => congrArg String.data hs
  simp only [WORD_BLACKLIST, List.mem_cons, List.not_mem_nil, or_false] at hmem
  rcases hmem with h1 | h1 | h1 | h1 | h1
  · exact hdata _ h1
  all_goals
    exact absurd (pyStripL_single word.data _ (hdata _ h1)) (by decide)

/-- Claim C7, amended: `validate_word` accepts a word exactly when,
after trimming, it is non-empty, has length between 1 and 100, contains
only characters of the class `[A-Za-z0-9-_'.]`, does not start or end
with a hyphen or an underscore, and contains none of the doubled
sequences `--`, `__`, `..` — doubled apostrophes are *not* rejected. -/
theorem claim_C7_amended (word : String) :
    isOkE (validate_word word) = amendedAcceptsC7 word := by
  have hbl := strip_blacklist word
  simp only [validate_word, amendedAcceptsC7, MIN_WORD_LENGTH, MAX_WORD_LENGTH]
  split_ifs with h1 h2 h3 h4 h5 h6 h7
  · simp only [Bool.or_eq_true] at h1
    rcases h1 with he | hc
    · simp [isOkE, he]
    · simp [isOkE, hbl hc]
  · have hd : (pyStrip word).data = [] :=
      List.length_eq_zero.1 (Nat.lt_one_iff.1 h2)
    exact absurd (by simp [hd]) h1
  · have e3 : decide ((pyStrip word).length ≤ 100) = false :=
      decide_eq_false (Nat.not_le.2 h3)
    simp [isOkE, e3]
  · simp only [Bool.not_eq_true'] at h4
    simp [isOkE, h4]
  · simp only [Bool.or_eq_true] at h5
    rcases h5 with h | h <;> simp [isOkE, h]
  · simp only [Bool.or_eq_true] at h6
    rcases h6 with h | h <;> simp [isOkE, h]
  · simp only [Bool.or_eq_true] at h7
    rcases h7 with (h | h) | h <;> simp [isOkE, h]
  · have e2 : decide (1 ≤ (pyStrip word).length) = true :=
      decide_eq_true (Nat.not_lt.1 h2)
    have e3 : decide ((pyStrip word).length ≤ 100) = true :=
      decide_eq_true (Nat.not_lt.1 h3)
    have h4t : (pyStrip word).data.all isWordChar = true := by
      cases ha : (pyStrip word).data.all isWordChar
      · exact absurd (by simp [ha]) h4
      · rfl
    simp only [Bool.or_eq_true, not_or, Bool.not_eq_true] at h1 h5 h6 h7
    simp [isOkE, h1.1, h1.2, e2, e3, h4t, h5.1, h5.2, h6.1, h6.2,
      h7.1.1, h7.1.2, h7.2]

/-- Claim C7, counterexample to the claim as stated: the word `a''b`
contains a doubled special character (the apostrophe is in the special
charset), so the claimed criteria reject it — but `validate_word`
accepts it, because the source checks consecutive doubles only for
`--`, `__` and `..`. -/
theorem claim_C7_counterexample :
    isOkE (validate_word ("a" ++ squo ++ squo ++ "b")) = true ∧
    specAcceptsC7 ("a" ++ squo ++ squo ++ "b") = false := by
  constructor
  · decide
  · decide

end WordGuess
